import Mathlib

/-!
# Reaction game: round state machine, attempt history and best-time store

A shallow embedding of `src/script.js` (the `avg`, `Storage`, `Stats` and `Game`
modules and the parts of `UI` they call) together with theorems about it.

Modelling conventions

* JavaScript numbers are `JSNum`: exact rationals extended with `NaN`, `+Infinity` and
  `-Infinity`.  Rounding error of binary floating point and the sign of zero are not
  represented.
* All module-level variables of the script (`state`, `waitTimerId`, `readyAt`,
  `attempts`), the `localStorage` item, the browser's table of pending timeouts and the
  last values handed to the presentation layer are the fields of one record, `World`;
  every function of the script is a function `World → World`.
* `performance.now()` is an argument of the functions that read the clock.
-/

namespace ReactionGame

/-! ## Numbers -/

/-- A JavaScript number: a rational, or one of the three non-finite values. -/
inductive JSNum where
  | nan : JSNum
  | posInf : JSNum
  | negInf : JSNum
  | fin (q : ℚ) : JSNum
deriving DecidableEq

namespace JSNum

/-- The script's `Number.isFinite`. -/
def isFinite : JSNum → Bool
  | fin _ => true
  | _ => false

/-- The script's `a < b`; false as soon as one side is `NaN`. -/
def lt : JSNum → JSNum → Bool
  | fin a, fin b => decide (a < b)
  | fin _, posInf => true
  | negInf, fin _ => true
  | negInf, posInf => true
  | _, _ => false

/-- The script's `a <= b`; false as soon as one side is `NaN`. -/
def le : JSNum → JSNum → Bool
  | fin a, fin b => decide (a ≤ b)
  | fin _, posInf => true
  | negInf, fin _ => true
  | negInf, posInf => true
  | negInf, negInf => true
  | posInf, posInf => true
  | _, _ => false

/-- The script's `a > b`. -/
def gt (a b : JSNum) : Bool := lt b a

/-- Unary minus. -/
def neg : JSNum → JSNum
  | nan => nan
  | posInf => negInf
  | negInf => posInf
  | fin a => fin (-a)

/-- The script's `a + b`. -/
def add : JSNum → JSNum → JSNum
  | fin a, fin b => fin (a + b)
  | nan, _ => nan
  | _, nan => nan
  | posInf, negInf => nan
  | negInf, posInf => nan
  | posInf, _ => posInf
  | negInf, _ => negInf
  | fin _, posInf => posInf
  | fin _, negInf => negInf

/-- The script's `a - b`. -/
def sub (a b : JSNum) : JSNum := add a (neg b)

/-- The script's `a / b`. -/
def div : JSNum → JSNum → JSNum
  | fin a, fin b =>
    if b = 0 then (if 0 < a then posInf else if a < 0 then negInf else nan)
    else fin (a / b)
  | fin _, posInf => fin 0
  | fin _, negInf => fin 0
  | posInf, fin b => if 0 ≤ b then posInf else negInf
  | negInf, fin b => if 0 ≤ b then negInf else posInf
  | _, _ => nan

/-- The script's `Math.round`: nearest integer, halves rounded up. -/
def round : JSNum → JSNum
  | fin a => fin (⌊a + 1 / 2⌋ : ℤ)
  | x => x

/-- An array length as a number. -/
def ofNat (n : Nat) : JSNum := fin n

/-- The validity predicate of a reaction time in the words of the specification: finite,
strictly greater than 0 and no greater than 60000. -/
def validReaction (r : JSNum) : Prop :=
  r.isFinite = true ∧ r.gt (fin 0) = true ∧ r.le (fin 60000) = true

instance (r : JSNum) : Decidable (validReaction r) := by
  unfold validReaction; infer_instance

end JSNum

/-! ## `avg` -/

/-- The `for` loop of `avg`: from index `i` on, add `arr[i]` to the running sum `s`. -/
def avgLoop (arr : List JSNum) (i : Nat) (s : JSNum) : JSNum :=
  if h : i < arr.length then avgLoop arr (i + 1) (s.add (arr.get ⟨i, h⟩)) else s
termination_by arr.length - i

/-- The script's `avg`. -/
def avg (arr : List JSNum) : JSNum :=
  if arr.length = 0 then JSNum.nan
  else (avgLoop arr 0 (JSNum.fin 0)).div (JSNum.ofNat arr.length)

/-! ## `Storage` -/

/-- The browser's `localStorage`, as far as the script uses it.  `item` is the string
stored under `STORAGE_KEY_BEST`, represented by the number `Number(raw)` it denotes
(`none` when the key is missing or the string is empty, both of which `readBest` maps to
`NaN`).  `throws` says that every access raises, which the script's `try`/`catch`
absorbs. -/
structure LocalStorage where
  item : Option JSNum
  throws : Bool
deriving DecidableEq

namespace Storage

/-- The script's `Storage.readBest`. -/
def readBest (ls : LocalStorage) : JSNum :=
  if ls.throws then JSNum.nan
  else
    match ls.item with
    | none => JSNum.nan
    | some n => if n.isFinite && n.gt (JSNum.fin 0) then n else JSNum.nan

/-- The script's `Storage.writeBest`: the stored string is `String(Math.round(ms))`. -/
def writeBest (ms : JSNum) (ls : LocalStorage) : LocalStorage :=
  if ls.throws then ls
  else if ms.isFinite && ms.gt (JSNum.fin 0) then { ls with item := some ms.round }
  else ls

/-- The script's `Storage.clearBest`. -/
def clearBest (ls : LocalStorage) : LocalStorage :=
  if ls.throws then ls else { ls with item := none }

end Storage

/-! ## `Stats` -/

namespace Stats

/-- The script's `Stats.addAttempt`, on the array `attempts`. -/
def addAttempt (ms : JSNum) (attempts : List JSNum) : List JSNum :=
  if !ms.isFinite || ms.le (JSNum.fin 0) then attempts
  else
    let unshifted := ms :: attempts
    if unshifted.length > 10 then unshifted.take 10 else unshifted

/-- The script's `Stats.resetSession`. -/
def resetSession (_attempts : List JSNum) : List JSNum := []

/-- The script's `Stats.getAttempts`: a copy of the array. -/
def getAttempts (attempts : List JSNum) : List JSNum := attempts

/-- The script's `Stats.getAverage`. -/
def getAverage (attempts : List JSNum) : JSNum := avg attempts

/-- The script's `Stats.getLast`. -/
def getLast (attempts : List JSNum) : JSNum :=
  match attempts with
  | [] => JSNum.nan
  | a :: _ => a

/-- The script's `Stats.getCount`. -/
def getCount (attempts : List JSNum) : Nat := attempts.length

/-- Recording the durations `ds` one after the other, oldest first. -/
def recordAll (ds : List JSNum) (h : List JSNum) : List JSNum :=
  ds.foldl (fun acc d => addAttempt d acc) h

end Stats

/-! ## The state of the page -/

/-- The script's `STATES`. -/
inductive State where
  | IDLE | WAITING | READY | TOO_EARLY | RESULT
deriving DecidableEq

/-- The argument of `UI.renderStats`. -/
structure StatsPayload where
  currentMs : JSNum
  bestMs : JSNum
  avgMs : JSNum
  lastMs : JSNum
  sessionCount : Nat
deriving DecidableEq

/-- The messages the script passes to `UI.announce`.  The one for a result carries the
number it prints, `Math.round(data.currentMs)`. -/
inductive Notice where
  | wait | go | falseStart
  | result (rounded : JSNum)
  | invalidSample | sessionReset | bestCleared | paused
deriving DecidableEq

/-- Everything the script reads or writes. -/
structure World where
  /-- The variable `Game.state`. -/
  state : State
  /-- The variable `Game.waitTimerId`; `0` is "no timer". -/
  waitTimerId : Nat
  /-- The variable `Game.readyAt`; `0` is "not armed". -/
  readyAt : JSNum
  /-- The array `Stats.attempts`, newest first. -/
  attempts : List JSNum
  /-- The browser's `localStorage`. -/
  storage : LocalStorage
  /-- Handles of the timeouts the browser still holds (set, neither fired nor
  cleared). -/
  timers : List Nat
  /-- The last handle `setTimeout` returned. -/
  timerSeq : Nat
  /-- The arguments of the last `UI.renderStateView` call: state and `data.currentMs`
  (`none` for the default `{}`). -/
  view : Option (State × Option JSNum)
  /-- The argument of the last `UI.renderStats` call. -/
  stats : Option StatsPayload
  /-- The argument of the last `UI.renderAttempts` call. -/
  grid : Option (List JSNum)
  /-- The message of the last `UI.announce` call. -/
  notice : Option Notice
deriving DecidableEq

namespace UI

/-- The script's `UI.announce`. -/
def announce (msg : Notice) (w : World) : World := { w with notice := some msg }

/-- The script's `UI.renderStateView`: what it shows is a function of its two
arguments, which are recorded; the branches differ in the announcement. -/
def renderStateView (state : State) (currentMs : Option JSNum) (w : World) : World :=
  let w := { w with view := some (state, currentMs) }
  match state with
  | State.IDLE => w
  | State.WAITING => announce Notice.wait w
  | State.READY => announce Notice.go w
  | State.TOO_EARLY => announce Notice.falseStart w
  | State.RESULT =>
    match currentMs with
    | some ms => if ms.isFinite then announce (Notice.result ms.round) w else w
    | none => w

/-- The script's `UI.renderStats`. -/
def renderStats (p : StatsPayload) (w : World) : World := { w with stats := some p }

/-- The script's `UI.renderAttempts`. -/
def renderAttempts (attempts : List JSNum) (w : World) : World :=
  { w with grid := some attempts }

end UI

/-! ## `Game` -/

namespace Game

/-- The script's `clearWaitTimer`; `clearTimeout` drops the handle from the browser's
table. -/
def clearWaitTimer (w : World) : World :=
  if w.waitTimerId ≠ 0 then
    { w with timers := w.timers.filter (fun t => t ≠ w.waitTimerId), waitTimerId := 0 }
  else w

/-- The script's `setState` (the call to the decorative `Visuals3D.setMode` and the
`aria-label` update have no effect on the game and are left out). -/
def setState (next : State) (currentMs : Option JSNum) (w : World) : World :=
  if w.state = next then w
  else UI.renderStateView next currentMs { w with state := next }

/-- The callback `scheduleReady` hands to `setTimeout`, run at clock reading `now`. -/
def timerCallback (now : JSNum) (w : World) : World :=
  let w := { w with waitTimerId := 0 }
  if w.state ≠ State.WAITING then w
  else setState State.READY none { w with readyAt := now }

/-- The script's `scheduleReady`.  `setTimeout` returns a fresh positive handle and adds
it to the browser's table; the random delay only decides when the browser fires the
callback, which is an event of its own here. -/
def scheduleReady (w : World) : World :=
  let w := clearWaitTimer w
  let handle := w.timerSeq + 1
  { w with timers := handle :: w.timers, timerSeq := handle, waitTimerId := handle }

/-- The script's `startRound`. -/
def startRound (w : World) : World :=
  if w.state ≠ State.IDLE ∧ w.state ≠ State.RESULT ∧ w.state ≠ State.TOO_EARLY then w
  else scheduleReady (setState State.WAITING none { w with readyAt := JSNum.fin 0 })

/-- The script's `falseStart`. -/
def falseStart (w : World) : World :=
  if w.state ≠ State.WAITING then w
  else setState State.TOO_EARLY none { clearWaitTimer w with readyAt := JSNum.fin 0 }

/-- The script's `stopOnReady`, with `now` the value of `performance.now()`. -/
def stopOnReady (now : JSNum) (w : World) : World :=
  if w.state ≠ State.READY then w
  else
    let clickedAt := now
    let reactionMs := clickedAt.sub w.readyAt
    if !reactionMs.isFinite || reactionMs.le (JSNum.fin 0)
        || reactionMs.gt (JSNum.fin 60000) then
      UI.announce Notice.invalidSample (setState State.IDLE none w)
    else
      let w := { w with attempts := Stats.addAttempt reactionMs w.attempts }
      let best := Storage.readBest w.storage
      let w :=
        if !best.isFinite || reactionMs.lt best then
          { w with storage := Storage.writeBest reactionMs w.storage }
        else w
      let bestMs := Storage.readBest w.storage
      let attempts := Stats.getAttempts w.attempts
      let avgMs := Stats.getAverage w.attempts
      let lastMs := Stats.getLast w.attempts
      let w := UI.renderAttempts attempts w
      let w := UI.renderStats
        { currentMs := reactionMs, bestMs := bestMs, avgMs := avgMs, lastMs := lastMs,
          sessionCount := Stats.getCount w.attempts } w
      setState State.RESULT (some reactionMs) w

/-- Lines 510-511 of the script on their own: the store after `stopOnReady` has
compared the reaction `r` with the stored best. -/
def storeAfterCommit (r : JSNum) (ls : LocalStorage) : LocalStorage :=
  if !(Storage.readBest ls).isFinite || r.lt (Storage.readBest ls) then
    Storage.writeBest r ls
  else ls

/-- The script's `canInput`. -/
def canInput (s : State) : Bool :=
  s = State.IDLE || s = State.WAITING || s = State.READY || s = State.RESULT
    || s = State.TOO_EARLY

/-- The script's `onPrimaryInput`. -/
def onPrimaryInput (now : JSNum) (w : World) : World :=
  if !canInput w.state then w
  else if w.state = State.IDLE ∨ w.state = State.RESULT ∨ w.state = State.TOO_EARLY then
    startRound w
  else if w.state = State.WAITING then falseStart w
  else if w.state = State.READY then stopOnReady now w
  else w

/-- The script's `Game.resetSession`. -/
def resetSession (w : World) : World :=
  let w := { w with attempts := Stats.resetSession w.attempts }
  let w := UI.renderAttempts (Stats.getAttempts w.attempts) w
  let w := UI.renderStats
    { currentMs := JSNum.nan, bestMs := Storage.readBest w.storage,
      avgMs := Stats.getAverage w.attempts, lastMs := Stats.getLast w.attempts,
      sessionCount := Stats.getCount w.attempts } w
  UI.announce Notice.sessionReset (setState State.IDLE none w)

/-- The script's `Game.clearBest`. -/
def clearBest (w : World) : World :=
  let w := { w with storage := Storage.clearBest w.storage }
  let w := UI.renderStats
    { currentMs := JSNum.nan, bestMs := Storage.readBest w.storage,
      avgMs := Stats.getAverage w.attempts, lastMs := Stats.getLast w.attempts,
      sessionCount := Stats.getCount w.attempts } w
  UI.announce Notice.bestCleared w

/-- The `visibilitychange` listener installed by `Game.init`; `hidden` is
`document.hidden`. -/
def onVisibilityChange (hidden : Bool) (w : World) : World :=
  if hidden then
    let w := clearWaitTimer w
    if w.state = State.WAITING ∨ w.state = State.READY then
      UI.announce Notice.paused (setState State.IDLE none w)
    else w
  else w

/-- The page after `Game.init`, for a given content of `localStorage`: the closure
variables have their initial values and the first render has happened. -/
def init (ls : LocalStorage) : World :=
  { state := State.IDLE, waitTimerId := 0, readyAt := JSNum.fin 0, attempts := [],
    storage := ls, timers := [], timerSeq := 0,
    view := some (State.IDLE, none),
    stats := some
      { currentMs := JSNum.nan, bestMs := Storage.readBest ls, avgMs := Stats.getAverage [],
        lastMs := Stats.getLast [], sessionCount := Stats.getCount [] },
    grid := some (Stats.getAttempts []),
    notice := none }

end Game

/-! ## Events -/

/-- What can happen to the page: the listeners `Game.init` installs and the browser
firing a timeout. -/
inductive Event where
  /-- A click on the arena, or Space/Enter without auto-repeat, at clock reading `now`. -/
  | primaryInput (now : JSNum)
  /-- The browser runs the callback of timeout `handle` at clock reading `now`. -/
  | timerFire (handle : Nat) (now : JSNum)
  /-- The event `visibilitychange`, with the value of `document.hidden`. -/
  | visibilityChange (hidden : Bool)
  /-- A click on "reset session". -/
  | resetSession
  /-- A click on "clear best". -/
  | clearBest

/-- One event.  A timeout fires only while the browser holds it, and is dropped from
the table when it does (it is single-shot). -/
def step (w : World) : Event → World
  | Event.primaryInput now => Game.onPrimaryInput now w
  | Event.timerFire handle now =>
    if handle ∈ w.timers then
      Game.timerCallback now { w with timers := w.timers.filter (fun t => t ≠ handle) }
    else w
  | Event.visibilityChange hidden => Game.onVisibilityChange hidden w
  | Event.resetSession => Game.resetSession w
  | Event.clearBest => Game.clearBest w

/-- A sequence of events, in order. -/
def run (w : World) (es : List Event) : World := es.foldl step w

/-- The first half of a round: a primary input, then the browser firing the timeout
that this input scheduled, at clock reading `t`. -/
def arm (t : JSNum) (w : World) : World :=
  step (step w (Event.primaryInput t))
    (Event.timerFire (step w (Event.primaryInput t)).waitTimerId t)

/-- One full round: the cue at clock reading `t` as in `arm`, then a primary input at
clock reading `t + r`. -/
def playRound (t r : JSNum) (w : World) : World :=
  step (arm t w) (Event.primaryInput (t.add r))

/-- A store that works and holds no best time. -/
def emptyStore : LocalStorage := { item := none, throws := false }

/-- A store that works and holds the string of the number `b`. -/
def storeOf (b : ℚ) : LocalStorage := { item := some (JSNum.fin b), throws := false }

/-- Several rounds in a row, each given by the clock reading of its cue and the
reaction time. -/
def playRounds (w : World) (rounds : List (JSNum × JSNum)) : World :=
  rounds.foldl (fun acc tr => playRound tr.1 tr.2 acc) w

/-! ## Lemmas on numbers -/

namespace JSNum

theorem validReaction_iff_fin (r : JSNum) :
    validReaction r ↔ ∃ q : ℚ, r = fin q ∧ 0 < q ∧ q ≤ 60000 := by
  cases r <;> simp [validReaction, isFinite, gt, lt, le]

/-- The guard of `stopOnReady` rejects exactly the reactions that are not valid. -/
theorem guard_eq_false_iff (r : JSNum) :
    (!r.isFinite || r.le (fin 0) || r.gt (fin 60000)) = false ↔ validReaction r := by
  cases r <;> simp [validReaction, isFinite, gt, lt, le]

theorem add_sub_cancel_fin (t q : ℚ) : ((fin t).add (fin q)).sub (fin t) = fin q := by
  simp [add, sub, neg]

end JSNum

/-! ## Lemmas on the attempt history -/

namespace Stats

theorem addAttempt_valid (d : JSNum) (h : List JSNum) (hd : JSNum.validReaction d) :
    addAttempt d h = (d :: h).take 10 := by
  obtain ⟨q, rfl, hq, _⟩ := (JSNum.validReaction_iff_fin d).1 hd
  have hq2 : ¬ q ≤ 0 := not_le.2 hq
  by_cases hl : (JSNum.fin q :: h).length > 10
  · simp [addAttempt, JSNum.isFinite, JSNum.le, hq2, hl]
  · have : (JSNum.fin q :: h).take 10 = JSNum.fin q :: h :=
      List.take_of_length_le (by omega)
    simp only [addAttempt, JSNum.isFinite, JSNum.le, hq2, hl, this]
    simp

theorem take_append_take (n : Nat) (a b : List JSNum) :
    (a ++ b.take n).take n = (a ++ b).take n := by
  rw [List.take_append_eq_append_take, List.take_append_eq_append_take, List.take_take]
  congr 2
  omega

theorem recordAll_valid (ds h : List JSNum) (hds : ∀ d ∈ ds, JSNum.validReaction d)
    (hh : h.length ≤ 10) : recordAll ds h = (ds.reverse ++ h).take 10 := by
  induction ds generalizing h with
  | nil => simpa [recordAll] using (List.take_of_length_le hh).symm
  | cons d ds ih =>
    have hd := hds d (List.mem_cons_self _ _)
    have hrest : ∀ x ∈ ds, JSNum.validReaction x :=
      fun x hx => hds x (List.mem_cons_of_mem _ hx)
    have hstep : recordAll (d :: ds) h = recordAll ds (addAttempt d h) := rfl
    rw [hstep, addAttempt_valid d h hd, ih _ hrest (by simp), take_append_take]
    simp

end Stats

/-! ## Lemmas on the state machine -/

namespace Game

theorem onPrimaryInput_ready (now : JSNum) (w : World) (hs : w.state = State.READY) :
    onPrimaryInput now w = stopOnReady now w := by
  simp [onPrimaryInput, canInput, hs]

theorem onPrimaryInput_waiting (now : JSNum) (w : World) (hs : w.state = State.WAITING) :
    onPrimaryInput now w = falseStart w := by
  simp [onPrimaryInput, canInput, hs]

theorem onPrimaryInput_rest (now : JSNum) (w : World)
    (hs : w.state = State.IDLE ∨ w.state = State.RESULT ∨ w.state = State.TOO_EARLY) :
    onPrimaryInput now w = startRound w := by
  rcases hs with hs | hs | hs <;> simp [onPrimaryInput, canInput, hs]

theorem stopOnReady_invalid (now : JSNum) (w : World) (hs : w.state = State.READY)
    (hr : ¬ (now.sub w.readyAt).validReaction) :
    stopOnReady now w =
      { w with state := State.IDLE, view := some (State.IDLE, none),
               notice := some Notice.invalidSample } := by
  have hg : (!(now.sub w.readyAt).isFinite || (now.sub w.readyAt).le (JSNum.fin 0)
      || (now.sub w.readyAt).gt (JSNum.fin 60000)) = true := by
    rw [← Bool.not_eq_false, JSNum.guard_eq_false_iff]; exact hr
  simp only [stopOnReady, hs]
  simp [hg, setState, hs, UI.renderStateView, UI.announce]

theorem stopOnReady_valid (now : JSNum) (w : World) (hs : w.state = State.READY)
    (hr : (now.sub w.readyAt).validReaction) :
    stopOnReady now w =
      { w with
        state := State.RESULT,
        attempts := ((now.sub w.readyAt) :: w.attempts).take 10,
        storage := storeAfterCommit (now.sub w.readyAt) w.storage,
        view := some (State.RESULT, some (now.sub w.readyAt)),
        stats := some
          { currentMs := now.sub w.readyAt,
            bestMs := Storage.readBest (storeAfterCommit (now.sub w.readyAt) w.storage),
            avgMs := avg (((now.sub w.readyAt) :: w.attempts).take 10),
            lastMs := now.sub w.readyAt,
            sessionCount := (((now.sub w.readyAt) :: w.attempts).take 10).length },
        grid := some (((now.sub w.readyAt) :: w.attempts).take 10),
        notice := some (Notice.result (now.sub w.readyAt).round) } := by
  have hg : (!(now.sub w.readyAt).isFinite || (now.sub w.readyAt).le (JSNum.fin 0)
      || (now.sub w.readyAt).gt (JSNum.fin 60000)) = false :=
    (JSNum.guard_eq_false_iff _).2 hr
  have hfin : (now.sub w.readyAt).isFinite = true := hr.1
  have hle : (now.sub w.readyAt).le (JSNum.fin 0) = false := by
    simp only [Bool.or_eq_false_iff] at hg; exact hg.1.2
  have hgt : (now.sub w.readyAt).gt (JSNum.fin 60000) = false := by
    simp only [Bool.or_eq_false_iff] at hg; exact hg.2
  simp only [stopOnReady, hs]
  by_cases hc : (!(Storage.readBest w.storage).isFinite
      || (now.sub w.readyAt).lt (Storage.readBest w.storage)) = true
  · simp [hle, hgt, hc, hfin, setState, hs, UI.renderStateView, UI.announce, UI.renderStats,
      UI.renderAttempts, Stats.addAttempt_valid _ _ hr, storeAfterCommit,
      Stats.getAttempts, Stats.getAverage, Stats.getLast, Stats.getCount]
  · simp [hle, hgt, hc, hfin, setState, hs, UI.renderStateView, UI.announce, UI.renderStats,
      UI.renderAttempts, Stats.addAttempt_valid _ _ hr, storeAfterCommit,
      Stats.getAttempts, Stats.getAverage, Stats.getLast, Stats.getCount]

theorem clearWaitTimer_frame (w : World) :
    (clearWaitTimer w).state = w.state ∧ (clearWaitTimer w).readyAt = w.readyAt ∧
    (clearWaitTimer w).attempts = w.attempts ∧ (clearWaitTimer w).storage = w.storage ∧
    (clearWaitTimer w).timerSeq = w.timerSeq ∧ (clearWaitTimer w).view = w.view ∧
    (clearWaitTimer w).stats = w.stats ∧ (clearWaitTimer w).grid = w.grid ∧
    (clearWaitTimer w).notice = w.notice := by
  unfold clearWaitTimer; split <;> simp

theorem clearWaitTimer_id (w : World) : (clearWaitTimer w).waitTimerId = 0 := by
  unfold clearWaitTimer; split
  · rfl
  · rename_i h; simpa using h

theorem clearWaitTimer_cancels (w : World) (h : w.waitTimerId ≠ 0) :
    w.waitTimerId ∉ (clearWaitTimer w).timers := by
  simp [clearWaitTimer, h]

theorem clearWaitTimer_timers_subset (w : World) (t : Nat)
    (h : t ∈ (clearWaitTimer w).timers) : t ∈ w.timers := by
  unfold clearWaitTimer at h; split at h
  · exact (List.mem_filter.1 h).1
  · exact h

/-- What `startRound` does from a state in which it acts. -/
theorem startRound_spec (w : World)
    (hs : w.state = State.IDLE ∨ w.state = State.RESULT ∨ w.state = State.TOO_EARLY) :
    (startRound w).state = State.WAITING ∧ (startRound w).readyAt = JSNum.fin 0 ∧
    (startRound w).waitTimerId = w.timerSeq + 1 ∧
    (startRound w).timerSeq = w.timerSeq + 1 ∧
    (startRound w).timers = (w.timerSeq + 1) :: (clearWaitTimer w).timers ∧
    (startRound w).attempts = w.attempts ∧ (startRound w).storage = w.storage := by
  have h1 : ¬ (w.state ≠ State.IDLE ∧ w.state ≠ State.RESULT ∧ w.state ≠ State.TOO_EARLY) := by
    rcases hs with h | h | h <;> simp [h]
  have h2 : w.state ≠ State.WAITING := by
    rcases hs with h | h | h <;> simp [h]
  simp only [startRound, if_neg h1, scheduleReady, setState, if_neg h2, UI.renderStateView,
    UI.announce]
  unfold clearWaitTimer
  split <;> simp

/-- What the timer callback does when the state is still `WAITING`. -/
theorem timerCallback_waiting (now : JSNum) (w : World) (hs : w.state = State.WAITING) :
    timerCallback now w =
      { w with waitTimerId := 0, readyAt := now, state := State.READY,
               view := some (State.READY, none), notice := some Notice.go } := by
  simp [timerCallback, hs, setState, UI.renderStateView, UI.announce]

/-- The stale-timer guard: in any other state the callback only forgets the handle. -/
theorem timerCallback_stale (now : JSNum) (w : World) (hs : w.state ≠ State.WAITING) :
    timerCallback now w = { w with waitTimerId := 0 } := by
  simp [timerCallback, hs]

/-- What `falseStart` does in state `WAITING`. -/
theorem falseStart_spec (w : World) (hs : w.state = State.WAITING) :
    falseStart w =
      { clearWaitTimer w with readyAt := JSNum.fin 0, state := State.TOO_EARLY,
                              view := some (State.TOO_EARLY, none),
                              notice := some Notice.falseStart } := by
  have h := (clearWaitTimer_frame w).1
  simp [falseStart, hs, setState, h, UI.renderStateView, UI.announce]

/-- What the visibility listener does on `hidden` in the states `WAITING` and `READY`. -/
theorem onVisibilityChange_hidden (w : World)
    (hs : w.state = State.WAITING ∨ w.state = State.READY) :
    onVisibilityChange true w =
      { clearWaitTimer w with state := State.IDLE, view := some (State.IDLE, none),
                              notice := some Notice.paused } := by
  have h := (clearWaitTimer_frame w).1
  rcases hs with hs | hs <;>
    simp [onVisibilityChange, hs, setState, h, UI.renderStateView, UI.announce]

end Game

/-! ## Lemmas on the best-time store -/

namespace Storage

theorem readBest_nan_or_pos (ls : LocalStorage) :
    readBest ls = JSNum.nan ∨ ∃ b : ℚ, 0 < b ∧ readBest ls = JSNum.fin b := by
  unfold readBest
  split
  · exact Or.inl rfl
  · split
    · exact Or.inl rfl
    · rename_i n _
      cases n with
      | fin b =>
        by_cases hb : 0 < b
        · exact Or.inr ⟨b, hb, by simp [JSNum.isFinite, JSNum.gt, JSNum.lt, hb]⟩
        · exact Or.inl (by simp [JSNum.isFinite, JSNum.gt, JSNum.lt, hb])
      | nan => exact Or.inl (by simp [JSNum.isFinite])
      | posInf => exact Or.inl (by simp [JSNum.isFinite])
      | negInf => exact Or.inl (by simp [JSNum.isFinite])

theorem writeBest_item (ls : LocalStorage) (q : ℚ) (hok : ls.throws = false) (hq : 0 < q) :
    writeBest (JSNum.fin q) ls = { ls with item := some (JSNum.fin (⌊q + 1 / 2⌋ : ℤ)) } := by
  simp [writeBest, hok, JSNum.isFinite, JSNum.gt, JSNum.lt, hq, JSNum.round]

theorem readBest_item_int (ls : LocalStorage) (m : ℤ) (hok : ls.throws = false)
    (hitem : ls.item = some (JSNum.fin m)) (hm : 0 < m) : readBest ls = JSNum.fin m := by
  have hm' : (0 : ℚ) < m := by exact_mod_cast hm
  simp [readBest, hok, hitem, JSNum.isFinite, JSNum.gt, JSNum.lt, hm']

theorem round_pos (q : ℚ) (hq : 1 / 2 ≤ q) : 0 < ⌊q + 1 / 2⌋ := by
  have h : (1 : ℤ) ≤ ⌊q + 1 / 2⌋ := Int.le_floor.2 (by push_cast; linarith)
  omega

theorem round_le_of_lt (q : ℚ) (m : ℤ) (h : q < m) : ⌊q + 1 / 2⌋ ≤ m := by
  have h2 : ⌊q + 1 / 2⌋ < m + 1 := Int.floor_lt.2 (by push_cast; linarith)
  omega

end Storage

namespace Game

/-- With a working store and a reaction of at least half a millisecond, the best read
back after the comparison in `stopOnReady` is the rounded reaction when there was no
best or the reaction beats it, and the old best otherwise. -/
theorem readBest_storeAfterCommit (ls : LocalStorage) (q : ℚ) (hok : ls.throws = false)
    (hq : 1 / 2 ≤ q) :
    (storeAfterCommit (JSNum.fin q) ls).throws = false ∧
    (Storage.readBest ls = JSNum.nan →
      Storage.readBest (storeAfterCommit (JSNum.fin q) ls) = JSNum.fin (⌊q + 1 / 2⌋ : ℤ)) ∧
    (∀ b : ℚ, Storage.readBest ls = JSNum.fin b → q < b →
      Storage.readBest (storeAfterCommit (JSNum.fin q) ls) = JSNum.fin (⌊q + 1 / 2⌋ : ℤ)) ∧
    (∀ b : ℚ, Storage.readBest ls = JSNum.fin b → ¬ q < b →
      storeAfterCommit (JSNum.fin q) ls = ls) := by
  have hq0 : 0 < q := by linarith
  have hw := Storage.writeBest_item ls q hok hq0
  have hread : Storage.readBest (Storage.writeBest (JSNum.fin q) ls)
      = JSNum.fin (⌊q + 1 / 2⌋ : ℤ) := by
    rw [hw]
    exact Storage.readBest_item_int _ _ hok rfl (Storage.round_pos q hq)
  refine ⟨?_, ?_, ?_, ?_⟩
  · unfold storeAfterCommit; split
    · rw [hw]; exact hok
    · exact hok
  · intro hb
    simpa [storeAfterCommit, hb, JSNum.isFinite] using hread
  · intro b hb hlt
    simpa [storeAfterCommit, hb, JSNum.isFinite, JSNum.lt, hlt] using hread
  · intro b hb hlt
    simp [storeAfterCommit, hb, JSNum.isFinite, JSNum.lt, hlt]

end Game

/-! ## Lemmas on whole rounds -/

/-- A primary input in a state from which a round can start gives `WAITING`, and the
firing of the timeout it scheduled arms the machine. -/
theorem armed_after_fire (w : World) (t : JSNum)
    (hs : w.state = State.IDLE ∨ w.state = State.RESULT ∨ w.state = State.TOO_EARLY) :
    (step w (Event.primaryInput t)).state = State.WAITING ∧
    (arm t w).state = State.READY ∧ (arm t w).readyAt = t ∧
    (arm t w).attempts = w.attempts ∧ (arm t w).storage = w.storage ∧
    (arm t w).waitTimerId = 0 := by
  obtain ⟨h1, _, h3, _, h5, h6, h7⟩ := Game.startRound_spec w hs
  have hstep : step w (Event.primaryInput t) = Game.startRound w := by
    simp only [step]; exact Game.onPrimaryInput_rest t w hs
  unfold arm
  rw [hstep]
  have hmem : (Game.startRound w).waitTimerId ∈ (Game.startRound w).timers := by
    rw [h3, h5]; simp
  simp only [step, hmem, if_true]
  rw [Game.timerCallback_waiting _ _ (by simpa using h1)]
  simp [h1, h6, h7]

/-- A full round with a valid reaction time `r` ends in `RESULT`, with `r` shown,
prepended to the history and compared with the stored best. -/
theorem playRound_valid (w : World) (t r : ℚ)
    (hs : w.state = State.IDLE ∨ w.state = State.RESULT ∨ w.state = State.TOO_EARLY)
    (hr : 0 < r ∧ r ≤ 60000) :
    (playRound (JSNum.fin t) (JSNum.fin r) w).state = State.RESULT ∧
    (playRound (JSNum.fin t) (JSNum.fin r) w).view
      = some (State.RESULT, some (JSNum.fin r)) ∧
    (playRound (JSNum.fin t) (JSNum.fin r) w).attempts
      = (JSNum.fin r :: w.attempts).take 10 ∧
    (playRound (JSNum.fin t) (JSNum.fin r) w).storage
      = Game.storeAfterCommit (JSNum.fin r) w.storage ∧
    (playRound (JSNum.fin t) (JSNum.fin r) w).stats = some
      { currentMs := JSNum.fin r,
        bestMs := Storage.readBest (Game.storeAfterCommit (JSNum.fin r) w.storage),
        avgMs := avg ((JSNum.fin r :: w.attempts).take 10),
        lastMs := JSNum.fin r,
        sessionCount := ((JSNum.fin r :: w.attempts).take 10).length } := by
  obtain ⟨_, h2, h3, h4, h5, _⟩ := armed_after_fire w (JSNum.fin t) hs
  have hsub : ((JSNum.fin t).add (JSNum.fin r)).sub (arm (JSNum.fin t) w).readyAt
      = JSNum.fin r := by
    rw [h3]; exact JSNum.add_sub_cancel_fin t r
  have hv : JSNum.validReaction (JSNum.fin r) :=
    (JSNum.validReaction_iff_fin _).2 ⟨r, rfl, hr⟩
  have hfinal : playRound (JSNum.fin t) (JSNum.fin r) w
      = Game.stopOnReady ((JSNum.fin t).add (JSNum.fin r)) (arm (JSNum.fin t) w) :=
    Game.onPrimaryInput_ready _ _ h2
  rw [hfinal, Game.stopOnReady_valid _ _ h2 (by rw [hsub]; exact hv), hsub]
  simp [h4, h5]

theorem readBest_not_finite (ls : LocalStorage)
    (h : (Storage.readBest ls).isFinite = false) : Storage.readBest ls = JSNum.nan := by
  rcases Storage.readBest_nan_or_pos ls with h' | ⟨b, _, h'⟩
  · exact h'
  · rw [h'] at h; simp [JSNum.isFinite] at h

theorem round_int (n : ℤ) : (JSNum.fin (n : ℚ)).round = JSNum.fin n := by
  have h : ⌊(n : ℚ) + 1 / 2⌋ = n := by
    rw [Int.floor_eq_iff]; constructor <;> linarith
  show JSNum.fin ((⌊(n : ℚ) + 1 / 2⌋ : ℤ) : ℚ) = JSNum.fin n
  rw [h]

theorem round_eval (q : ℚ) (m : ℤ) (h₁ : (m : ℚ) ≤ q + 1 / 2) (h₂ : q + 1 / 2 < m + 1) :
    (JSNum.fin q).round = JSNum.fin m := by
  have h : ⌊q + 1 / 2⌋ = m := Int.floor_eq_iff.2 ⟨h₁, h₂⟩
  show JSNum.fin ((⌊q + 1 / 2⌋ : ℤ) : ℚ) = JSNum.fin m
  rw [h]

theorem readBest_some (b : ℚ) :
    Storage.readBest { item := some (JSNum.fin b), throws := false }
      = if 0 < b then JSNum.fin b else JSNum.nan := by
  by_cases hb : 0 < b <;> simp [Storage.readBest, JSNum.isFinite, JSNum.gt, JSNum.lt, hb]

theorem storeAfterCommit_beats (q b : ℚ) (hq : 0 < q) (hqb : q < b) :
    Game.storeAfterCommit (JSNum.fin q) { item := some (JSNum.fin b), throws := false }
      = { item := some (JSNum.fin q).round, throws := false } := by
  have hb : 0 < b := lt_trans hq hqb
  simp [Game.storeAfterCommit, Storage.readBest, Storage.writeBest, JSNum.isFinite, JSNum.gt,
    JSNum.lt, hq, hb, hqb]

/-- The comparison in `stopOnReady` for a reaction of a whole number of milliseconds,
with a working store. -/
theorem readBest_storeAfterCommit_int (ls : LocalStorage) (q : ℚ) (n : ℤ)
    (hqn : (n : ℚ) = q) (hn : 0 < n) (hok : ls.throws = false) :
    (Game.storeAfterCommit (JSNum.fin q) ls).throws = false ∧
    (Storage.readBest ls = JSNum.nan →
      Storage.readBest (Game.storeAfterCommit (JSNum.fin q) ls) = JSNum.fin q) ∧
    (∀ b : ℚ, Storage.readBest ls = JSNum.fin b → q < b →
      Storage.readBest (Game.storeAfterCommit (JSNum.fin q) ls) = JSNum.fin q) ∧
    (∀ b : ℚ, Storage.readBest ls = JSNum.fin b → ¬ q < b →
      Storage.readBest (Game.storeAfterCommit (JSNum.fin q) ls) = JSNum.fin b) := by
  have h1 : (1 : ℚ) ≤ n := by exact_mod_cast hn
  have hq : 1 / 2 ≤ q := by rw [← hqn]; linarith
  have hfl : ⌊q + 1 / 2⌋ = n := by
    rw [Int.floor_eq_iff, ← hqn]; constructor <;> linarith
  obtain ⟨g1, g2, g3, g4⟩ := Game.readBest_storeAfterCommit ls q hok hq
  rw [hfl, hqn] at g2 g3
  exact ⟨g1, g2, g3, fun b hb hlt => by rw [g4 b hb hlt]; exact hb⟩

/-- With a working store that holds a whole number of milliseconds, as `writeBest`
leaves it, committing a reaction of at least half a millisecond keeps a best time and
does not raise it. -/
theorem best_nonincreasing_int (ls : LocalStorage) (m : ℤ) (q : ℚ)
    (hok : ls.throws = false) (hb : Storage.readBest ls = JSNum.fin m) (hm : 0 < m)
    (hq : 1 / 2 ≤ q) :
    ∃ m' : ℤ, 0 < m' ∧ m' ≤ m ∧
      Storage.readBest (Game.storeAfterCommit (JSNum.fin q) ls) = JSNum.fin m' := by
  obtain ⟨_, _, g3, g4⟩ := Game.readBest_storeAfterCommit ls q hok hq
  by_cases hc : q < (m : ℚ)
  · exact ⟨⌊q + 1 / 2⌋, Storage.round_pos q hq, Storage.round_le_of_lt q m hc, g3 _ hb hc⟩
  · exact ⟨m, hm, le_rfl, by rw [g4 _ hb hc]; exact hb⟩

/-! ## Attempt history and statistics -/

/-- C4: for every history `h` and every duration `d` with `0 < d ≤ 60000`, after
`Stats.addAttempt(d)` the snapshot is the first 10 elements of `d :: h`; so `getLast()`
is `d` and `getCount()` is at most 10; and after 11 records onto the empty history the
count is 10 and the snapshot is exactly the ten later entries, newest first: the entry
recorded first is gone (it occurs in the snapshot only if a later record has the same
value). -/
theorem addAttempt_snapshot (h : List JSNum) (d : JSNum) (hd : JSNum.validReaction d) :
    Stats.getAttempts (Stats.addAttempt d h) = (d :: h).take 10 ∧
    Stats.getLast (Stats.addAttempt d h) = d ∧
    Stats.getCount (Stats.addAttempt d h) ≤ 10 ∧
    ∀ (d₁ : JSNum) (later : List JSNum), JSNum.validReaction d₁ →
      (∀ x ∈ later, JSNum.validReaction x) → later.length = 10 →
      Stats.getCount (Stats.recordAll (d₁ :: later) []) = 10 ∧
      Stats.getAttempts (Stats.recordAll (d₁ :: later) []) = later.reverse ∧
      (d₁ ∉ later → d₁ ∉ Stats.getAttempts (Stats.recordAll (d₁ :: later) [])) := by
  rw [Stats.addAttempt_valid d h hd]
  refine ⟨rfl, rfl, ?_, ?_⟩
  · simp [Stats.getCount]
  · intro d₁ later h₁ hl hlen
    have hall : ∀ x ∈ d₁ :: later, JSNum.validReaction x := by
      intro x hx
      rcases List.mem_cons.1 hx with rfl | hx
      · exact h₁
      · exact hl x hx
    have hsnap : Stats.recordAll (d₁ :: later) [] = later.reverse := by
      rw [Stats.recordAll_valid _ _ hall (by simp)]
      simp only [List.reverse_cons, List.append_nil]
      rw [List.take_append_eq_append_take]
      simp [hlen]
    rw [hsnap]
    refine ⟨by simp [Stats.getCount, hlen], rfl, ?_⟩
    intro hnot
    simpa [Stats.getAttempts] using hnot

/-- Recording 220 onto the empty history, and the eleven records 100, 101, ..., 110, as
instances of C4. -/
theorem addAttempt_snapshot_witness :
    JSNum.validReaction (JSNum.fin 220) ∧
    Stats.getAttempts (Stats.addAttempt (JSNum.fin 220) []) = [JSNum.fin 220] ∧
    Stats.getLast (Stats.addAttempt (JSNum.fin 220) []) = JSNum.fin 220 ∧
    Stats.getCount (Stats.recordAll
      (JSNum.fin 100 :: ([101, 102, 103, 104, 105, 106, 107, 108, 109, 110].map JSNum.fin))
      []) = 10 ∧
    JSNum.fin 100 ∉ Stats.getAttempts (Stats.recordAll
      (JSNum.fin 100 :: ([101, 102, 103, 104, 105, 106, 107, 108, 109, 110].map JSNum.fin))
      []) :=
  have hv : JSNum.validReaction (JSNum.fin 220) := by
    norm_num [JSNum.validReaction, JSNum.isFinite, JSNum.gt, JSNum.lt, JSNum.le]
  have h₁ : JSNum.validReaction (JSNum.fin 100) := by
    norm_num [JSNum.validReaction, JSNum.isFinite, JSNum.gt, JSNum.lt, JSNum.le]
  have hl : ∀ x ∈ ([101, 102, 103, 104, 105, 106, 107, 108, 109, 110] : List ℚ).map JSNum.fin,
      JSNum.validReaction x := by
    intro x hx
    simp only [List.map_cons, List.map_nil, List.mem_cons, List.mem_singleton,
      List.not_mem_nil, or_false] at hx
    rcases hx with rfl | rfl | rfl | rfl | rfl | rfl | rfl | rfl | rfl | rfl <;>
      norm_num [JSNum.validReaction, JSNum.isFinite, JSNum.gt, JSNum.lt, JSNum.le]
  have hnot : JSNum.fin 100
      ∉ ([101, 102, 103, 104, 105, 106, 107, 108, 109, 110] : List ℚ).map JSNum.fin := by
    norm_num
  have h11 := (addAttempt_snapshot [] (JSNum.fin 220) hv).2.2.2 (JSNum.fin 100)
    (([101, 102, 103, 104, 105, 106, 107, 108, 109, 110] : List ℚ).map JSNum.fin) h₁ hl rfl
  ⟨hv, (addAttempt_snapshot [] (JSNum.fin 220) hv).1,
    (addAttempt_snapshot [] (JSNum.fin 220) hv).2.1, h11.1, h11.2.2 hnot⟩

/-! ## The round state machine -/

/-- C1: in state `READY`, a primary input at clock reading `now`, with
`reaction = now - readyAt`, leads to `RESULT` if and only if the reaction is finite,
greater than 0 and at most 60000; then the reaction is the payload shown and is
prepended to the attempt history (which keeps its first 10 entries); otherwise the
machine goes to `IDLE` and the attempt history and the store are what they were. -/
theorem ready_input_result_iff_valid (w : World) (now : JSNum)
    (hs : w.state = State.READY) :
    ((step w (Event.primaryInput now)).state = State.RESULT
      ↔ (now.sub w.readyAt).validReaction) ∧
    ((now.sub w.readyAt).validReaction →
      (step w (Event.primaryInput now)).view
        = some (State.RESULT, some (now.sub w.readyAt)) ∧
      (step w (Event.primaryInput now)).attempts
        = ((now.sub w.readyAt) :: w.attempts).take 10 ∧
      Stats.getLast (step w (Event.primaryInput now)).attempts = now.sub w.readyAt) ∧
    (¬ (now.sub w.readyAt).validReaction →
      (step w (Event.primaryInput now)).state = State.IDLE ∧
      (step w (Event.primaryInput now)).attempts = w.attempts ∧
      (step w (Event.primaryInput now)).storage = w.storage ∧
      Storage.readBest (step w (Event.primaryInput now)).storage
        = Storage.readBest w.storage) := by
  have hstep : step w (Event.primaryInput now) = Game.stopOnReady now w :=
    Game.onPrimaryInput_ready now w hs
  rw [hstep]
  by_cases hv : (now.sub w.readyAt).validReaction
  · rw [Game.stopOnReady_valid now w hs hv]
    simp [hv, Stats.getLast]
  · rw [Game.stopOnReady_invalid now w hs hv]
    simp [hv]

/-- C3: in state `WAITING` a primary input gives `TOO_EARLY`, unsets the timer handle
and takes the timeout out of the browser's table, and records nothing: the attempt
history, its average, most recent entry and count, the statistics shown and the store
are what they were. -/
theorem waiting_input_false_start (w : World) (now : JSNum)
    (hs : w.state = State.WAITING) :
    (step w (Event.primaryInput now)).state = State.TOO_EARLY ∧
    (step w (Event.primaryInput now)).waitTimerId = 0 ∧
    (w.waitTimerId ≠ 0 → w.waitTimerId ∉ (step w (Event.primaryInput now)).timers) ∧
    (step w (Event.primaryInput now)).attempts = w.attempts ∧
    Stats.getAverage (step w (Event.primaryInput now)).attempts
      = Stats.getAverage w.attempts ∧
    Stats.getLast (step w (Event.primaryInput now)).attempts = Stats.getLast w.attempts ∧
    Stats.getCount (step w (Event.primaryInput now)).attempts
      = Stats.getCount w.attempts ∧
    (step w (Event.primaryInput now)).stats = w.stats ∧
    (step w (Event.primaryInput now)).grid = w.grid ∧
    (step w (Event.primaryInput now)).storage = w.storage ∧
    Storage.readBest (step w (Event.primaryInput now)).storage
      = Storage.readBest w.storage := by
  have hstep : step w (Event.primaryInput now) = Game.falseStart w :=
    Game.onPrimaryInput_waiting now w hs
  obtain ⟨_, _, h3, h4, _, _, h7, h8, _⟩ := Game.clearWaitTimer_frame w
  rw [hstep, Game.falseStart_spec w hs]
  refine ⟨rfl, Game.clearWaitTimer_id w, Game.clearWaitTimer_cancels w, ?_⟩
  simp [h3, h4, h7, h8]

/-- C8, as the script has it: in state `WAITING` or `READY` a visibility-hidden event
resets the state to `IDLE`, cancels the pending timer and records nothing, and leaves the
ready timestamp as it was; the primary input after it starts a new `WAITING` phase with
the ready timestamp cleared, never a `RESULT`. -/
theorem hidden_resets_round (w : World) (now : JSNum)
    (hs : w.state = State.WAITING ∨ w.state = State.READY) :
    (step w (Event.visibilityChange true)).state = State.IDLE ∧
    (step w (Event.visibilityChange true)).waitTimerId = 0 ∧
    (w.waitTimerId ≠ 0 → w.waitTimerId ∉ (step w (Event.visibilityChange true)).timers) ∧
    (step w (Event.visibilityChange true)).readyAt = w.readyAt ∧
    (step w (Event.visibilityChange true)).attempts = w.attempts ∧
    (step w (Event.visibilityChange true)).storage = w.storage ∧
    (step (step w (Event.visibilityChange true)) (Event.primaryInput now)).state
      = State.WAITING ∧
    (step (step w (Event.visibilityChange true)) (Event.primaryInput now)).state
      ≠ State.RESULT ∧
    (step (step w (Event.visibilityChange true)) (Event.primaryInput now)).readyAt
      = JSNum.fin 0 ∧
    (step (step w (Event.visibilityChange true)) (Event.primaryInput now)).attempts
      = w.attempts ∧
    (step (step w (Event.visibilityChange true)) (Event.primaryInput now)).storage
      = w.storage := by
  have hstep : step w (Event.visibilityChange true) = Game.onVisibilityChange true w := rfl
  obtain ⟨_, h2, h3, h4, _⟩ := Game.clearWaitTimer_frame w
  have hidle : (step w (Event.visibilityChange true)).state = State.IDLE := by
    rw [hstep, Game.onVisibilityChange_hidden w hs]
  have hatt : (step w (Event.visibilityChange true)).attempts = w.attempts := by
    rw [hstep, Game.onVisibilityChange_hidden w hs]; exact h3
  have hsto : (step w (Event.visibilityChange true)).storage = w.storage := by
    rw [hstep, Game.onVisibilityChange_hidden w hs]; exact h4
  have hnext : step (step w (Event.visibilityChange true)) (Event.primaryInput now)
      = Game.startRound (step w (Event.visibilityChange true)) :=
    Game.onPrimaryInput_rest now _ (Or.inl hidle)
  obtain ⟨g1, g2, _, _, _, g6, g7⟩ :=
    Game.startRound_spec (step w (Event.visibilityChange true)) (Or.inl hidle)
  refine ⟨hidle, ?_, ?_, ?_, hatt, hsto, ?_, ?_, ?_, ?_, ?_⟩
  · rw [hstep, Game.onVisibilityChange_hidden w hs]; exact Game.clearWaitTimer_id w
  · rw [hstep, Game.onVisibilityChange_hidden w hs]; exact Game.clearWaitTimer_cancels w
  · rw [hstep, Game.onVisibilityChange_hidden w hs]; exact h2
  · rw [hnext]; exact g1
  · rw [hnext, g1]; decide
  · rw [hnext]; exact g2
  · rw [hnext, g6]; exact hatt
  · rw [hnext, g7]; exact hsto

/-- A round from the armed page with a reaction of 220 ms ends in `RESULT`, one with
the clock running backwards in `IDLE`, as instances of C1. -/
theorem ready_input_result_iff_valid_witness :
    (arm (JSNum.fin 1000) (Game.init emptyStore)).state = State.READY ∧
    (step (arm (JSNum.fin 1000) (Game.init emptyStore))
      (Event.primaryInput (JSNum.fin 1220))).state = State.RESULT ∧
    (step (arm (JSNum.fin 1000) (Game.init emptyStore))
      (Event.primaryInput (JSNum.fin 900))).state = State.IDLE :=
  have ha := armed_after_fire (Game.init emptyStore) (JSNum.fin 1000) (Or.inl rfl)
  have hv : ((JSNum.fin 1220).sub (arm (JSNum.fin 1000) (Game.init emptyStore)).readyAt).validReaction := by
    rw [ha.2.2.1]
    norm_num [JSNum.validReaction, JSNum.sub, JSNum.add, JSNum.neg, JSNum.isFinite,
      JSNum.gt, JSNum.lt, JSNum.le]
  have hn : ¬ ((JSNum.fin 900).sub (arm (JSNum.fin 1000) (Game.init emptyStore)).readyAt).validReaction := by
    rw [ha.2.2.1]
    norm_num [JSNum.validReaction, JSNum.sub, JSNum.add, JSNum.neg, JSNum.isFinite,
      JSNum.gt, JSNum.lt, JSNum.le]
  ⟨ha.2.1,
    (ready_input_result_iff_valid _ (JSNum.fin 1220) ha.2.1).1.2 hv,
    ((ready_input_result_iff_valid _ (JSNum.fin 900) ha.2.1).2.2 hn).1⟩

/-- A second input on the freshly started page is a false start, as an instance of
C3. -/
theorem waiting_input_false_start_witness :
    (step (Game.init emptyStore) (Event.primaryInput (JSNum.fin 0))).state = State.WAITING ∧
    (step (step (Game.init emptyStore) (Event.primaryInput (JSNum.fin 0)))
      (Event.primaryInput (JSNum.fin 5))).state = State.TOO_EARLY ∧
    (step (step (Game.init emptyStore) (Event.primaryInput (JSNum.fin 0)))
      (Event.primaryInput (JSNum.fin 5))).waitTimerId = 0 :=
  have hw := (armed_after_fire (Game.init emptyStore) (JSNum.fin 0) (Or.inl rfl)).1
  ⟨hw, (waiting_input_false_start _ (JSNum.fin 5) hw).1,
    (waiting_input_false_start _ (JSNum.fin 5) hw).2.1⟩

/-- C8 as stated fails: hiding the page in state `READY` (armed at clock reading 1000)
resets the state to `IDLE` but leaves the ready timestamp at 1000. -/
theorem hidden_keeps_readyAt :
    (arm (JSNum.fin 1000) (Game.init emptyStore)).state = State.READY ∧
    (step (arm (JSNum.fin 1000) (Game.init emptyStore))
      (Event.visibilityChange true)).state = State.IDLE ∧
    (step (arm (JSNum.fin 1000) (Game.init emptyStore))
      (Event.visibilityChange true)).readyAt = JSNum.fin 1000 ∧
    (step (arm (JSNum.fin 1000) (Game.init emptyStore))
      (Event.visibilityChange true)).readyAt ≠ JSNum.fin 0 := by
  have ha := armed_after_fire (Game.init emptyStore) (JSNum.fin 1000) (Or.inl rfl)
  have hstep : step (arm (JSNum.fin 1000) (Game.init emptyStore))
      (Event.visibilityChange true)
      = Game.onVisibilityChange true (arm (JSNum.fin 1000) (Game.init emptyStore)) := rfl
  have hr : (step (arm (JSNum.fin 1000) (Game.init emptyStore))
      (Event.visibilityChange true)).readyAt = JSNum.fin 1000 := by
    rw [hstep, Game.onVisibilityChange_hidden _ (Or.inr ha.2.1)]
    exact (Game.clearWaitTimer_frame _).2.1.trans ha.2.2.1
  refine ⟨ha.2.1, ?_, hr, ?_⟩
  · rw [hstep, Game.onVisibilityChange_hidden _ (Or.inr ha.2.1)]
  · rw [hr]; intro h; injection h with h; norm_num at h

/-- Hiding the armed page and clicking again, as an instance of C8. -/
theorem hidden_resets_round_witness :
    (arm (JSNum.fin 1000) (Game.init emptyStore)).state = State.READY ∧
    (step (arm (JSNum.fin 1000) (Game.init emptyStore))
      (Event.visibilityChange true)).state = State.IDLE ∧
    (step (step (arm (JSNum.fin 1000) (Game.init emptyStore))
      (Event.visibilityChange true)) (Event.primaryInput (JSNum.fin 1220))).state
      = State.WAITING :=
  have ha := armed_after_fire (Game.init emptyStore) (JSNum.fin 1000) (Or.inl rfl)
  ⟨ha.2.1, (hidden_resets_round _ (JSNum.fin 1220) (Or.inr ha.2.1)).1,
    (hidden_resets_round _ (JSNum.fin 1220) (Or.inr ha.2.1)).2.2.2.2.2.2.1⟩

/-- C10 fails on the script: a primary input followed by a click on "reset session"
leaves the machine in `IDLE` with the handle of the round's timeout still set and the
timeout still held by the browser (`resetSession` does not call `clearWaitTimer`). -/
theorem resetSession_keeps_timer :
    (run (Game.init emptyStore) [Event.primaryInput (JSNum.fin 0)]).state = State.WAITING ∧
    (run (Game.init emptyStore)
      [Event.primaryInput (JSNum.fin 0), Event.resetSession]).state = State.IDLE ∧
    (run (Game.init emptyStore)
      [Event.primaryInput (JSNum.fin 0), Event.resetSession]).waitTimerId = 1 ∧
    1 ∈ (run (Game.init emptyStore)
      [Event.primaryInput (JSNum.fin 0), Event.resetSession]).timers := by
  decide

/-! ## The best time -/

/-- C2 as stated fails: with a stored best of 400 a reaction of 399.7 ms is strictly
less than the best, yet the best read back afterwards is still 400, not 399.7 (the
store keeps `Math.round` of the reaction). -/
theorem best_not_overwritten_by_reaction :
    (JSNum.fin (3997 / 10)).validReaction ∧
    Storage.readBest (Game.init (storeOf 400)).storage = JSNum.fin 400 ∧
    (JSNum.fin (3997 / 10)).lt (Storage.readBest (Game.init (storeOf 400)).storage) = true ∧
    Storage.readBest
      (playRound (JSNum.fin 1000) (JSNum.fin (3997 / 10)) (Game.init (storeOf 400))).storage
      = JSNum.fin 400 ∧
    Storage.readBest
      (playRound (JSNum.fin 1000) (JSNum.fin (3997 / 10)) (Game.init (storeOf 400))).storage
      ≠ JSNum.fin (3997 / 10) := by
  have hb : Storage.readBest (Game.init (storeOf 400)).storage = JSNum.fin 400 := by
    show Storage.readBest { item := some (JSNum.fin 400), throws := false } = _
    rw [readBest_some]; norm_num
  have hp := (playRound_valid (Game.init (storeOf 400)) 1000 (3997 / 10) (Or.inl rfl)
    (by norm_num)).2.2.2.1
  have hafter : Storage.readBest
      (playRound (JSNum.fin 1000) (JSNum.fin (3997 / 10)) (Game.init (storeOf 400))).storage
      = JSNum.fin 400 := by
    rw [hp]
    show Storage.readBest (Game.storeAfterCommit (JSNum.fin (3997 / 10))
      { item := some (JSNum.fin 400), throws := false }) = _
    rw [storeAfterCommit_beats _ _ (by norm_num) (by norm_num),
      round_eval (3997 / 10) 400 (by norm_num) (by norm_num)]
    have h := readBest_some ((400 : ℤ) : ℚ)
    norm_num at h ⊢
    exact h
  refine ⟨by norm_num [JSNum.validReaction, JSNum.isFinite, JSNum.gt, JSNum.lt, JSNum.le],
    hb, ?_, hafter, ?_⟩
  · rw [hb]; norm_num [JSNum.lt]
  · rw [hafter]; intro h; injection h with h; norm_num at h

/-- C2 as the script has it: when a valid reaction `q` of at least half a millisecond
is committed in `stopOnReady` with a working store, the best read back afterwards is
`Math.round(q)` if there was no best or `q` is strictly less than the best, and the
store is untouched otherwise; committing 500, then 400, then 600 from no best leaves
the best at 400. -/
theorem best_overwritten_iff_beaten (w : World) (now : JSNum) (q : ℚ)
    (hs : w.state = State.READY) (hok : w.storage.throws = false)
    (hq : now.sub w.readyAt = JSNum.fin q) (hr : 1 / 2 ≤ q ∧ q ≤ 60000) :
    (((Storage.readBest w.storage).isFinite = false ∨
        (JSNum.fin q).lt (Storage.readBest w.storage) = true) →
      Storage.readBest (step w (Event.primaryInput now)).storage = (JSNum.fin q).round) ∧
    (¬ ((Storage.readBest w.storage).isFinite = false ∨
        (JSNum.fin q).lt (Storage.readBest w.storage) = true) →
      (step w (Event.primaryInput now)).storage = w.storage) ∧
    (∀ (w₀ : World) (t₁ t₂ t₃ : ℚ),
      (w₀.state = State.IDLE ∨ w₀.state = State.RESULT ∨ w₀.state = State.TOO_EARLY) →
      w₀.storage.throws = false → (Storage.readBest w₀.storage).isFinite = false →
      Storage.readBest (playRounds w₀
        [(JSNum.fin t₁, JSNum.fin 500), (JSNum.fin t₂, JSNum.fin 400),
          (JSNum.fin t₃, JSNum.fin 600)]).storage = JSNum.fin 400) := by
  have hq0 : 0 < q := by linarith [hr.1]
  have hv : (now.sub w.readyAt).validReaction := by
    rw [hq]; exact (JSNum.validReaction_iff_fin _).2 ⟨q, rfl, hq0, hr.2⟩
  have hstep : step w (Event.primaryInput now) = Game.stopOnReady now w :=
    Game.onPrimaryInput_ready now w hs
  have hsto : (step w (Event.primaryInput now)).storage
      = Game.storeAfterCommit (JSNum.fin q) w.storage := by
    rw [hstep, Game.stopOnReady_valid now w hs hv, hq]
  obtain ⟨_, g2, g3, g4⟩ := Game.readBest_storeAfterCommit w.storage q hok hr.1
  refine ⟨?_, ?_, ?_⟩
  · intro hc
    rw [hsto]
    rcases Storage.readBest_nan_or_pos w.storage with hb | ⟨b, _, hb⟩
    · exact g2 hb
    · rw [hb] at hc
      have hlt : q < b := by simpa [JSNum.isFinite, JSNum.lt] using hc
      exact g3 b hb hlt
  · intro hc
    rw [hsto]
    rcases Storage.readBest_nan_or_pos w.storage with hb | ⟨b, _, hb⟩
    · exact absurd (Or.inl (by rw [hb]; rfl)) hc
    · rw [hb] at hc
      have hlt : ¬ q < b := by simpa [JSNum.isFinite, JSNum.lt] using hc
      exact g4 b hb hlt
  · intro w₀ t₁ t₂ t₃ hs₀ hok₀ hnone
    have hnan := readBest_not_finite _ hnone
    obtain ⟨a1, _, _, a4, _⟩ := playRound_valid w₀ t₁ 500 hs₀ (by norm_num)
    obtain ⟨b1, _, _, b4, _⟩ := playRound_valid _ t₂ 400 (Or.inr (Or.inl a1)) (by norm_num)
    obtain ⟨_, _, _, c4, _⟩ := playRound_valid _ t₃ 600 (Or.inr (Or.inl b1)) (by norm_num)
    obtain ⟨x1, x2, _, _⟩ :=
      readBest_storeAfterCommit_int w₀.storage 500 500 (by norm_num) (by norm_num) hok₀
    rw [← a4] at x1 x2
    obtain ⟨y1, _, y3, _⟩ :=
      readBest_storeAfterCommit_int _ 400 400 (by norm_num) (by norm_num) x1
    rw [← b4] at y1 y3
    obtain ⟨_, _, _, z4⟩ :=
      readBest_storeAfterCommit_int _ 600 600 (by norm_num) (by norm_num) y1
    rw [← c4] at z4
    have hfold : playRounds w₀
        [(JSNum.fin t₁, JSNum.fin 500), (JSNum.fin t₂, JSNum.fin 400),
          (JSNum.fin t₃, JSNum.fin 600)]
        = playRound (JSNum.fin t₃) (JSNum.fin 600)
            (playRound (JSNum.fin t₂) (JSNum.fin 400)
              (playRound (JSNum.fin t₁) (JSNum.fin 500) w₀)) := by
      simp only [playRounds, List.foldl]
    have h500 := x2 hnan
    have h400 := y3 500 h500 (by norm_num)
    rw [hfold]
    exact z4 400 h400 (by norm_num)

/-- A reaction of 250 ms against a stored best of 400, as an instance of C2. -/
theorem best_overwritten_iff_beaten_witness :
    (arm (JSNum.fin 1000) (Game.init (storeOf 400))).state = State.READY ∧
    Storage.readBest (step (arm (JSNum.fin 1000) (Game.init (storeOf 400)))
      (Event.primaryInput (JSNum.fin 1250))).storage = (JSNum.fin 250).round ∧
    Storage.readBest (playRounds (Game.init emptyStore)
      [(JSNum.fin 1000, JSNum.fin 500), (JSNum.fin 9000, JSNum.fin 400),
        (JSNum.fin 20000, JSNum.fin 600)]).storage = JSNum.fin 400 :=
  have ha := armed_after_fire (Game.init (storeOf 400)) (JSNum.fin 1000) (Or.inl rfl)
  have hb : Storage.readBest (arm (JSNum.fin 1000) (Game.init (storeOf 400))).storage
      = JSNum.fin 400 := by
    rw [ha.2.2.2.2.1]
    show Storage.readBest { item := some (JSNum.fin 400), throws := false } = _
    rw [readBest_some]; norm_num
  have h := best_overwritten_iff_beaten (arm (JSNum.fin 1000) (Game.init (storeOf 400)))
    (JSNum.fin 1250) 250 ha.2.1 (by rw [ha.2.2.2.2.1]; rfl)
    (by rw [ha.2.2.1]; norm_num [JSNum.sub, JSNum.add, JSNum.neg])
    (by norm_num)
  ⟨ha.2.1, h.1 (Or.inr (by rw [hb]; norm_num [JSNum.lt])),
    h.2.2 (Game.init emptyStore) 1000 9000 20000 (Or.inl rfl) rfl rfl⟩

/-- C7 fails on the script: with a stored best of 400, a valid reaction of 0.3 ms is
committed (the round ends in `RESULT`), `writeBest` stores `Math.round(0.3)`, that is 0,
and the best read back afterwards is `NaN`: the best time is lost. -/
theorem best_lost_on_short_reaction :
    Storage.readBest (Game.init (storeOf 400)).storage = JSNum.fin 400 ∧
    (JSNum.fin (3 / 10)).validReaction ∧
    (playRound (JSNum.fin 1000) (JSNum.fin (3 / 10)) (Game.init (storeOf 400))).state
      = State.RESULT ∧
    (playRound (JSNum.fin 1000) (JSNum.fin (3 / 10)) (Game.init (storeOf 400))).storage.item
      = some (JSNum.fin 0) ∧
    Storage.readBest
      (playRound (JSNum.fin 1000) (JSNum.fin (3 / 10)) (Game.init (storeOf 400))).storage
      = JSNum.nan := by
  have hb : Storage.readBest (Game.init (storeOf 400)).storage = JSNum.fin 400 := by
    show Storage.readBest { item := some (JSNum.fin 400), throws := false } = _
    rw [readBest_some]; norm_num
  obtain ⟨p1, _, _, p4, _⟩ := playRound_valid (Game.init (storeOf 400)) 1000 (3 / 10)
    (Or.inl rfl) (by norm_num)
  have hsto : (playRound (JSNum.fin 1000) (JSNum.fin (3 / 10))
      (Game.init (storeOf 400))).storage
      = { item := some (JSNum.fin 0), throws := false } := by
    rw [p4]
    show Game.storeAfterCommit (JSNum.fin (3 / 10))
      { item := some (JSNum.fin 400), throws := false } = _
    rw [storeAfterCommit_beats _ _ (by norm_num) (by norm_num),
      round_eval (3 / 10) 0 (by norm_num) (by norm_num)]
    norm_num
  refine ⟨hb,
    by norm_num [JSNum.validReaction, JSNum.isFinite, JSNum.gt, JSNum.lt, JSNum.le],
    p1, by rw [hsto], ?_⟩
  rw [hsto, readBest_some]; norm_num

/-! ## The ready timestamp -/

/-- In state `READY` a primary input keeps the ready timestamp and ends in `RESULT` or
in `IDLE`. -/
theorem stopOnReady_readyAt (now : JSNum) (w : World) (hs : w.state = State.READY) :
    (Game.stopOnReady now w).readyAt = w.readyAt ∧
    ((Game.stopOnReady now w).state = State.RESULT ∨
      (Game.stopOnReady now w).state = State.IDLE) := by
  by_cases hv : (now.sub w.readyAt).validReaction
  · rw [Game.stopOnReady_valid now w hs hv]
    exact ⟨rfl, Or.inl rfl⟩
  · rw [Game.stopOnReady_invalid now w hs hv]
    exact ⟨rfl, Or.inr rfl⟩

/-- The session reset ends in `IDLE` and keeps the ready timestamp. -/
theorem resetSession_readyAt (w : World) :
    (Game.resetSession w).state = State.IDLE ∧ (Game.resetSession w).readyAt = w.readyAt := by
  by_cases hs : w.state = State.IDLE <;>
    simp [Game.resetSession, Game.setState, hs, UI.renderStateView, UI.announce,
      UI.renderStats, UI.renderAttempts]

/-- The visibility listener either leaves the state alone or ends in `IDLE`, and keeps
the ready timestamp. -/
theorem onVisibilityChange_readyAt (hidden : Bool) (w : World) :
    ((Game.onVisibilityChange hidden w).state = w.state ∨
      (Game.onVisibilityChange hidden w).state = State.IDLE) ∧
    (Game.onVisibilityChange hidden w).readyAt = w.readyAt := by
  cases hidden with
  | false => exact ⟨Or.inl rfl, rfl⟩
  | true =>
    by_cases hs : w.state = State.WAITING ∨ w.state = State.READY
    · rw [Game.onVisibilityChange_hidden w hs]
      exact ⟨Or.inr rfl, (Game.clearWaitTimer_frame w).2.1⟩
    · have hc := (Game.clearWaitTimer_frame w).1
      have h : Game.onVisibilityChange true w = Game.clearWaitTimer w := by
        simp only [Game.onVisibilityChange, if_true, hc, if_neg hs]
      rw [h]
      exact ⟨Or.inl hc, (Game.clearWaitTimer_frame w).2.1⟩

/-- One event keeps the two facts about the ready timestamp that the script maintains:
it is zero in `WAITING` and `TOO_EARLY`, and non-zero in `READY` as long as no timeout
fires at clock reading zero. -/
theorem step_timestamp (w : World) (e : Event)
    (hclock : ∀ handle now, e = Event.timerFire handle now → now ≠ JSNum.fin 0)
    (hzero : w.state = State.WAITING ∨ w.state = State.TOO_EARLY → w.readyAt = JSNum.fin 0)
    (hset : w.state = State.READY → w.readyAt ≠ JSNum.fin 0) :
    ((step w e).state = State.WAITING ∨ (step w e).state = State.TOO_EARLY →
      (step w e).readyAt = JSNum.fin 0) ∧
    ((step w e).state = State.READY → (step w e).readyAt ≠ JSNum.fin 0) := by
  cases e with
  | primaryInput now =>
    have hstep : step w (Event.primaryInput now) = Game.onPrimaryInput now w := rfl
    rw [hstep]
    by_cases h1 : w.state = State.IDLE ∨ w.state = State.RESULT ∨ w.state = State.TOO_EARLY
    · obtain ⟨g1, g2, _⟩ := Game.startRound_spec w h1
      rw [Game.onPrimaryInput_rest now w h1]
      simp [g1, g2]
    · by_cases h2 : w.state = State.WAITING
      · rw [Game.onPrimaryInput_waiting now w h2, Game.falseStart_spec w h2]
        simp
      · have h3 : w.state = State.READY := by
          cases hst : w.state <;> simp [hst] at h1 h2 ⊢
        obtain ⟨_, g2⟩ := stopOnReady_readyAt now w h3
        rw [Game.onPrimaryInput_ready now w h3]
        rcases g2 with g | g <;> simp [g]
  | timerFire handle now =>
    by_cases hmem : handle ∈ w.timers
    · by_cases hs : w.state = State.WAITING
      · simp only [step, hmem, if_true]
        rw [Game.timerCallback_waiting now _ (by simpa using hs)]
        simpa using hclock handle now rfl
      · simp only [step, hmem, if_true]
        rw [Game.timerCallback_stale now _ (by simpa using hs)]
        exact ⟨hzero, hset⟩
    · have h : step w (Event.timerFire handle now) = w := by simp [step, hmem]
      rw [h]
      exact ⟨hzero, hset⟩
  | visibilityChange hidden =>
    have hstep : step w (Event.visibilityChange hidden)
        = Game.onVisibilityChange hidden w := rfl
    obtain ⟨g1, g2⟩ := onVisibilityChange_readyAt hidden w
    rw [hstep, g2]
    rcases g1 with g | g
    · rw [g]; exact ⟨hzero, hset⟩
    · simp [g]
  | resetSession =>
    have hstep : step w Event.resetSession = Game.resetSession w := rfl
    obtain ⟨g1, _⟩ := resetSession_readyAt w
    rw [hstep]
    simp [g1]
  | clearBest =>
    exact ⟨hzero, hset⟩

/-- The two facts of `step_timestamp` along a sequence of events. -/
theorem run_timestamp (es : List Event) (w : World)
    (hclock : ∀ handle now, Event.timerFire handle now ∈ es → now ≠ JSNum.fin 0)
    (hzero : w.state = State.WAITING ∨ w.state = State.TOO_EARLY → w.readyAt = JSNum.fin 0)
    (hset : w.state = State.READY → w.readyAt ≠ JSNum.fin 0) :
    ((run w es).state = State.WAITING ∨ (run w es).state = State.TOO_EARLY →
      (run w es).readyAt = JSNum.fin 0) ∧
    ((run w es).state = State.READY → (run w es).readyAt ≠ JSNum.fin 0) := by
  induction es generalizing w with
  | nil => exact ⟨hzero, hset⟩
  | cons e rest ih =>
    have hstep := step_timestamp w e
      (fun handle now he => hclock handle now (by rw [he]; exact List.mem_cons_self _ _))
      hzero hset
    have hrun : run w (e :: rest) = run (step w e) rest := rfl
    rw [hrun]
    exact ih (step w e)
      (fun handle now hm => hclock handle now (List.mem_cons_of_mem _ hm)) hstep.1 hstep.2

/-- C11 as stated fails: from the initial page, a primary input, the timeout firing
at clock reading 1000 and a primary input at 1220 end in `RESULT` with the ready
timestamp still 1000, so it is set in a state that is not `READY`. -/
theorem readyAt_survives_result :
    (run (Game.init emptyStore)
      [Event.primaryInput (JSNum.fin 0), Event.timerFire 1 (JSNum.fin 1000),
        Event.primaryInput (JSNum.fin 1220)]).state = State.RESULT ∧
    (run (Game.init emptyStore)
      [Event.primaryInput (JSNum.fin 0), Event.timerFire 1 (JSNum.fin 1000),
        Event.primaryInput (JSNum.fin 1220)]).readyAt = JSNum.fin 1000 ∧
    (run (Game.init emptyStore)
      [Event.primaryInput (JSNum.fin 0), Event.timerFire 1 (JSNum.fin 1000),
        Event.primaryInput (JSNum.fin 1220)]).readyAt ≠ JSNum.fin 0 := by
  have hs : (run (Game.init emptyStore)
      [Event.primaryInput (JSNum.fin 0), Event.timerFire 1 (JSNum.fin 1000)]).state
      = State.READY := by decide
  have hr : (run (Game.init emptyStore)
      [Event.primaryInput (JSNum.fin 0), Event.timerFire 1 (JSNum.fin 1000)]).readyAt
      = JSNum.fin 1000 := rfl
  have hrun : run (Game.init emptyStore)
      [Event.primaryInput (JSNum.fin 0), Event.timerFire 1 (JSNum.fin 1000),
        Event.primaryInput (JSNum.fin 1220)]
      = Game.onPrimaryInput (JSNum.fin 1220) (run (Game.init emptyStore)
          [Event.primaryInput (JSNum.fin 0), Event.timerFire 1 (JSNum.fin 1000)]) := by
    simp only [run, List.foldl, step]
  have hv : ((JSNum.fin 1220).sub (run (Game.init emptyStore)
      [Event.primaryInput (JSNum.fin 0), Event.timerFire 1 (JSNum.fin 1000)]).readyAt).validReaction := by
    rw [hr]
    norm_num [JSNum.validReaction, JSNum.sub, JSNum.add, JSNum.neg, JSNum.isFinite,
      JSNum.gt, JSNum.lt, JSNum.le]
  have hstate : (Game.stopOnReady (JSNum.fin 1220) (run (Game.init emptyStore)
      [Event.primaryInput (JSNum.fin 0), Event.timerFire 1 (JSNum.fin 1000)])).state
      = State.RESULT := by
    rw [Game.stopOnReady_valid _ _ hs hv]
  have hkeep := (stopOnReady_readyAt (JSNum.fin 1220) _ hs).1
  rw [hrun, Game.onPrimaryInput_ready _ _ hs]
  refine ⟨hstate, hkeep.trans hr, ?_⟩
  rw [hkeep, hr]
  intro h; injection h with h; norm_num at h

/-- C11 as the script has it: in every state reached from the initial state by a
sequence of events in which no timeout fires at clock reading zero, the ready timestamp
is non-zero if the state is `READY` and zero if the state is `WAITING` or `TOO_EARLY`.
Leaving `READY` does not clear it: a primary input (to `RESULT`, or to `IDLE` on an
invalid sample), a visibility-hidden event and a session reset keep its value, and the
primary input that starts the next round sets it to zero. -/
theorem ready_timestamp_facts (ls : LocalStorage) (es : List Event)
    (hclock : ∀ handle now, Event.timerFire handle now ∈ es → now ≠ JSNum.fin 0) :
    ((run (Game.init ls) es).state = State.READY →
      (run (Game.init ls) es).readyAt ≠ JSNum.fin 0) ∧
    ((run (Game.init ls) es).state = State.WAITING ∨
        (run (Game.init ls) es).state = State.TOO_EARLY →
      (run (Game.init ls) es).readyAt = JSNum.fin 0) ∧
    (∀ (w : World) (now : JSNum), w.state = State.READY →
      (step w (Event.primaryInput now)).readyAt = w.readyAt ∧
      (step w (Event.visibilityChange true)).readyAt = w.readyAt ∧
      (step w Event.resetSession).readyAt = w.readyAt) ∧
    (∀ (w : World) (now : JSNum),
      w.state = State.IDLE ∨ w.state = State.RESULT ∨ w.state = State.TOO_EARLY →
      (step w (Event.primaryInput now)).state = State.WAITING ∧
      (step w (Event.primaryInput now)).readyAt = JSNum.fin 0) := by
  have hidle : (Game.init ls).state = State.IDLE := rfl
  have hinv := run_timestamp es (Game.init ls) hclock
    (fun h => by rw [hidle] at h; rcases h with h | h <;> exact absurd h (by decide))
    (fun h => by rw [hidle] at h; exact absurd h (by decide))
  refine ⟨hinv.2, hinv.1, ?_, ?_⟩
  · intro w now hs
    refine ⟨?_, (onVisibilityChange_readyAt true w).2, (resetSession_readyAt w).2⟩
    have hstep : step w (Event.primaryInput now) = Game.onPrimaryInput now w := rfl
    rw [hstep, Game.onPrimaryInput_ready now w hs]
    exact (stopOnReady_readyAt now w hs).1
  · intro w now hs
    have hstep : step w (Event.primaryInput now) = Game.onPrimaryInput now w := rfl
    obtain ⟨g1, g2, _⟩ := Game.startRound_spec w hs
    rw [hstep, Game.onPrimaryInput_rest now w hs]
    exact ⟨g1, g2⟩

/-- The page armed at clock reading 1000, as an instance of C11. -/
theorem ready_timestamp_facts_witness :
    (run (Game.init emptyStore)
      [Event.primaryInput (JSNum.fin 0), Event.timerFire 1 (JSNum.fin 1000)]).state
      = State.READY ∧
    (run (Game.init emptyStore)
      [Event.primaryInput (JSNum.fin 0), Event.timerFire 1 (JSNum.fin 1000)]).readyAt
      ≠ JSNum.fin 0 :=
  have hs : (run (Game.init emptyStore)
      [Event.primaryInput (JSNum.fin 0), Event.timerFire 1 (JSNum.fin 1000)]).state
      = State.READY := by decide
  ⟨hs,
    (ready_timestamp_facts emptyStore
      [Event.primaryInput (JSNum.fin 0), Event.timerFire 1 (JSNum.fin 1000)]
      (by
        intro handle now hm
        simp only [List.mem_cons, List.mem_singleton, List.not_mem_nil, or_false,
          Event.timerFire.injEq] at hm
        rcases hm with hm | hm
        · exact Event.noConfusion hm
        · rw [hm.2]
          intro h; injection h with h; norm_num at h)).1 hs⟩

/-! ## The stale-timer guard -/

/-- C12: when the state is not `WAITING` (so `IDLE`, `READY`, `TOO_EARLY` or `RESULT`),
running the timer callback, directly or as the firing of any timeout, leaves the state,
the ready timestamp, the attempt history and the best time as they were, so it does not
move the machine to `READY`; the callback gives `READY`, with the ready timestamp set to
the clock reading, when the state is `WAITING`, and it changes the state in no other
case. -/
theorem stale_timer_noop (w : World) (now : JSNum) (hs : w.state ≠ State.WAITING) :
    ((Game.timerCallback now w).state = w.state ∧
      (Game.timerCallback now w).readyAt = w.readyAt ∧
      (Game.timerCallback now w).attempts = w.attempts ∧
      (Game.timerCallback now w).storage = w.storage ∧
      Storage.readBest (Game.timerCallback now w).storage = Storage.readBest w.storage) ∧
    (∀ handle : Nat,
      (step w (Event.timerFire handle now)).state = w.state ∧
      (step w (Event.timerFire handle now)).readyAt = w.readyAt ∧
      (step w (Event.timerFire handle now)).attempts = w.attempts ∧
      (step w (Event.timerFire handle now)).storage = w.storage) ∧
    (∀ v : World, v.state = State.WAITING →
      (Game.timerCallback now v).state = State.READY ∧
      (Game.timerCallback now v).readyAt = now) ∧
    (∀ v : World, (Game.timerCallback now v).state ≠ v.state → v.state = State.WAITING) := by
  refine ⟨?_, ?_, ?_, ?_⟩
  · rw [Game.timerCallback_stale now w hs]
    exact ⟨rfl, rfl, rfl, rfl, rfl⟩
  · intro handle
    by_cases hmem : handle ∈ w.timers
    · simp only [step, hmem, if_true]
      rw [Game.timerCallback_stale now _ (by simpa using hs)]
      exact ⟨rfl, rfl, rfl, rfl⟩
    · simp [step, hmem]
  · intro v hv
    rw [Game.timerCallback_waiting now v hv]
    exact ⟨rfl, rfl⟩
  · intro v hne
    by_contra hv
    rw [Game.timerCallback_stale now v hv] at hne
    exact hne rfl

/-- The callback run after a false start, and the timeout that a session reset left
pending firing in `IDLE`, as instances of C12. -/
theorem stale_timer_noop_witness :
    (run (Game.init emptyStore)
      [Event.primaryInput (JSNum.fin 0), Event.primaryInput (JSNum.fin 5)]).state
      = State.TOO_EARLY ∧
    (Game.timerCallback (JSNum.fin 1000) (run (Game.init emptyStore)
      [Event.primaryInput (JSNum.fin 0), Event.primaryInput (JSNum.fin 5)])).state
      = State.TOO_EARLY ∧
    (step (run (Game.init emptyStore) [Event.primaryInput (JSNum.fin 0), Event.resetSession])
      (Event.timerFire 1 (JSNum.fin 1000))).state = State.IDLE :=
  have h₁ : (run (Game.init emptyStore)
      [Event.primaryInput (JSNum.fin 0), Event.primaryInput (JSNum.fin 5)]).state
      = State.TOO_EARLY := by decide
  have h₂ : (run (Game.init emptyStore)
      [Event.primaryInput (JSNum.fin 0), Event.resetSession]).state = State.IDLE := by decide
  ⟨h₁,
    ((stale_timer_noop _ (JSNum.fin 1000) (by rw [h₁]; decide)).1.1).trans h₁,
    (((stale_timer_noop _ (JSNum.fin 1000) (by rw [h₂]; decide)).2.1 1).1).trans h₂⟩

end ReactionGame
